import Mathlib

/-!
Verification of the PV calibration core of the Antony-Soleil repository.

The embedding below follows `src/calibrate.py` and `src/sol-val.py`:

* `tauAt`, `cap_exponential`, `cap_linear`, `denomAux`/`denomSum` model the
  integration loops of `compute_K_exponential` (lines 130-166) and
  `compute_K_linear` (lines 168-187): the fraction of the year elapsed is
  `tau = i / (N - 1)` when `N > 1`, else `0`, `None` samples are skipped,
  and each present sample contributes `capacity(tau) * (v / 1000)`.
* `compute_K_exponential` / `compute_K_linear` model the two per-year
  calibration functions, with Python exceptions mapped to `CalibError`
  values (`ValueError` for non-positive capacity / energy, `RuntimeError`
  for an empty series or a non-positive integrated denominator).
* `annualSumAux` / `get_annual_irradiance_kwh_per_kwp` model
  `get_annual_irradiance_kwh_per_kwp` together with the emptiness check of
  `get_annual_irradiance_series` (lines 104-124).
* `runBatch` models the per-year loop of `main` (lines 215-230): a year
  whose inputs fail the validity test is skipped, otherwise both K values
  are computed and appended; an exception escaping the computation aborts
  the loop (there is no handler in the source).
* `medianK` / `reduceK` model the reduction `sorted(ks)[len(ks) // 2]` and
  the mean of `main` (lines 232-244), over the rationals so that they stay
  executable.
* `calibrate` models the ratio calibration of `sol-val.py` (lines 227-262),
  with the Python `ZeroDivisionError` at the two division sites mapped to the
  two distinct errors.
-/

namespace AntonySoleil

/-- Errors of the per-year trajectory calibration (`calibrate.py`). -/
inductive CalibError where
  | invalidCapacity
  | invalidEnergy
  | emptySeries
  | nonPositiveIntegral
  deriving DecidableEq

/-- Fraction of the year elapsed at raw sample index `i` of a series of
total length `N`: `i / (N - 1)` when `N > 1`, else `0`
(`calibrate.py` lines 157 and 182). -/
noncomputable def tauAt (N i : ℕ) : ℝ :=
  if 1 < N then (i : ℝ) / ((N : ℝ) - 1) else 0

/-- Exponential capacity law: `C_start * exp(log(C_end / C_start) * tau)`
(`calibrate.py` lines 150 and 158). -/
noncomputable def cap_exponential (C_start C_end τ : ℝ) : ℝ :=
  C_start * Real.exp (Real.log (C_end / C_start) * τ)

/-- Linear capacity law: `C_start + (C_end - C_start) * tau`
(`calibrate.py` line 183). -/
noncomputable def cap_linear (C_start C_end τ : ℝ) : ℝ :=
  C_start + (C_end - C_start) * τ

/-- The integration loop of both per-year calibrations: walks the series
with an index counter `i`, skips `None` samples, and otherwise adds
`cap (tauAt N i) * (v / 1000)` to the accumulator
(`calibrate.py` lines 152-160 and 178-184). -/
noncomputable def denomAux (cap : ℝ → ℝ) (N : ℕ) : ℕ → List (Option ℝ) → ℝ → ℝ
  | _, [], acc => acc
  | i, none :: rest, acc => denomAux cap N (i + 1) rest acc
  | i, some v :: rest, acc => denomAux cap N (i + 1) rest (acc + cap (tauAt N i) * (v / 1000))

/-- The integrated denominator of a per-year calibration, starting the
loop at index `0` with accumulator `0.0`. -/
noncomputable def denomSum (cap : ℝ → ℝ) (gti : List (Option ℝ)) : ℝ :=
  denomAux cap gti.length 0 gti 0

/-- Contribution of the sample stored at raw index `i` (out of `N`):
zero for a missing sample, `cap (tauAt N i) * (v / 1000)` for a present
one.  Used to state that the integration loop is a sum of per-position
terms. -/
noncomputable def contribAt (cap : ℝ → ℝ) (N i : ℕ) : Option ℝ → ℝ
  | none => 0
  | some v => cap (tauAt N i) * (v / 1000)

/-- `compute_K_exponential` (`calibrate.py` lines 130-166): validates the
capacity endpoints and the energy, fetches the series — the fetch at line
146 raises the empty-series error on an empty list
(`get_annual_irradiance_series`, lines 105-106) — integrates the
exponential capacity trajectory against the irradiance series, rejects a
non-positive denominator, and returns `E / denom`. -/
noncomputable def compute_K_exponential (C_prev C_curr E : ℝ) (gti : List (Option ℝ)) :
    Except CalibError ℝ :=
  if C_prev ≤ 0 ∨ C_curr ≤ 0 then .error .invalidCapacity
  else if E ≤ 0 then .error .invalidEnergy
  else if gti.length = 0 then .error .emptySeries
  else
    let denom := denomSum (cap_exponential C_prev C_curr) gti
    if denom ≤ 0 then .error .nonPositiveIntegral
    else .ok (E / denom)

/-- `compute_K_linear` (`calibrate.py` lines 168-187): rejects an empty
series, integrates the linear capacity trajectory, rejects a non-positive
denominator, and returns `E / denom`.  Note: unlike the exponential
variant, it performs no check on `C_prev`, `C_curr` or `E`. -/
noncomputable def compute_K_linear (C_prev C_curr E : ℝ) (gti : List (Option ℝ)) :
    Except CalibError ℝ :=
  if gti.length = 0 then .error .emptySeries
  else
    let denom := denomSum (cap_linear C_prev C_curr) gti
    if denom ≤ 0 then .error .nonPositiveIntegral
    else .ok (E / denom)

/-- The summation loop of `get_annual_irradiance_kwh_per_kwp`
(`calibrate.py` lines 116-124): skips `None` samples and adds `v / 1000`
for each present one. -/
noncomputable def annualSumAux : List (Option ℝ) → ℝ → ℝ
  | [], acc => acc
  | none :: rest, acc => annualSumAux rest acc
  | some v :: rest, acc => annualSumAux rest (acc + v / 1000)

/-- `get_annual_irradiance_kwh_per_kwp` together with the emptiness check
of `get_annual_irradiance_series` (`calibrate.py` lines 104-124): an empty
raw list is an error, otherwise the sum of `v / 1000` over present
samples is returned — a non-empty all-`None` list passes the check. -/
noncomputable def get_annual_irradiance_kwh_per_kwp (gti : List (Option ℝ)) :
    Except CalibError ℝ :=
  match gti with
  | [] => .error .emptySeries
  | _ => .ok (annualSumAux gti 0)

/-- Inputs of one calibration year in the batch loop of `main`:
`C_prev = cap[y-1]`, `C_curr = cap[y]`, `E = energy[y]`, and the
irradiance series for the year. -/
structure YearInput where
  C_prev : ℝ
  C_curr : ℝ
  E : ℝ
  gti : List (Option ℝ)

/-- The per-year batch loop of `main` (`calibrate.py` lines 215-230):
a year with `C_prev <= 0 or C_curr <= 0 or E_y <= 0` is skipped,
otherwise both K values are computed and appended to the result lists.
The source has no exception handler around the loop body, so an error
raised by either computation propagates and aborts the whole batch,
which the `Except` bind models. -/
noncomputable def runBatch : List YearInput → Except CalibError (List (ℝ × ℝ))
  | [] => .ok []
  | y :: rest =>
    if y.C_prev ≤ 0 ∨ y.C_curr ≤ 0 ∨ y.E ≤ 0 then runBatch rest
    else do
      let kexp ← compute_K_exponential y.C_prev y.C_curr y.E y.gti
      let klin ← compute_K_linear y.C_prev y.C_curr y.E y.gti
      let tail ← runBatch rest
      pure ((kexp, klin) :: tail)

/-- The per-year results a fully successful batch produces: skipped years
contribute nothing, every valid year contributes its pair
`(E / denom_exponential, E / denom_linear)`. -/
noncomputable def expectedResults : List YearInput → List (ℝ × ℝ)
  | [] => []
  | y :: rest =>
    if y.C_prev ≤ 0 ∨ y.C_curr ≤ 0 ∨ y.E ≤ 0 then expectedResults rest
    else (y.E / denomSum (cap_exponential y.C_prev y.C_curr) y.gti,
          y.E / denomSum (cap_linear y.C_prev y.C_curr) y.gti) :: expectedResults rest

/-- The median reduction of `main` (`calibrate.py` lines 234 and 241):
the element at index `len // 2` of the ascending-sorted list (over ℚ so
that it stays executable; `0` is returned for the empty list, which the
source never reaches because of its `if K_list:` guard). -/
def medianK (l : List ℚ) : ℚ :=
  (l.mergeSort (fun a b => decide (a ≤ b))).getD (l.length / 2) 0

/-- The reduction block of `main` (`calibrate.py` lines 232-244) for one
K list: nothing when the list is empty, otherwise the pair
`(mean, median)`. -/
def reduceK (l : List ℚ) : Option (ℚ × ℚ) :=
  if l.isEmpty then none else some (l.sum / (l.length : ℚ), medianK l)

/-- The full reduction of `main` (`calibrate.py` lines 232-244): the
exponential K list and the linear K list are reduced by two independent
blocks, one per law. -/
def summarize (kExpList kLinList : List ℚ) : Option (ℚ × ℚ) × Option (ℚ × ℚ) :=
  (reduceK kExpList, reduceK kLinList)

/-- Errors of the ratio calibration (`sol-val.py`), one per division
site: `ZeroDivisionError` at `R_cap = C_loc / C_region` and at
`K = E_loc_trusted / E_loc_naive`. -/
inductive RatioError where
  | invalidRatioDenominator
  | invalidCalibrationDenominator
  deriving DecidableEq

/-- The ratio calibration `calibrate` of `sol-val.py` (lines 227-262):
`R_cap = C_loc / C_region`, `E_loc_naive = R_cap * E_region`,
`K = E_loc_trusted / E_loc_naive`, returning `(R_cap, E_loc_naive, K)`.
Python raises `ZeroDivisionError` exactly when a divisor equals zero, so
each division is guarded by an equality test with zero. -/
def calibrate (C_loc C_region E_region E_loc_trusted : ℚ) :
    Except RatioError (ℚ × ℚ × ℚ) :=
  if C_region = 0 then .error .invalidRatioDenominator
  else
    let R_cap := C_loc / C_region
    let E_loc_naive := R_cap * E_region
    if E_loc_naive = 0 then .error .invalidCalibrationDenominator
    else .ok (R_cap, E_loc_naive, E_loc_trusted / E_loc_naive)

/-! ## Helper lemmas -/

/-- The summation loop of the annual irradiance computation accumulates
`v / 1000` over the present samples. -/
theorem annualSumAux_eq (l : List (Option ℝ)) : ∀ acc : ℝ,
    annualSumAux l acc = acc + ((l.filterMap id).map (fun v => v / 1000)).sum := by
  induction l with
  | nil => intro acc; simp [annualSumAux]
  | cons o rest ih =>
    intro acc
    cases o with
    | none => simp [annualSumAux, ih]
    | some v => simp [annualSumAux, ih, add_assoc]

/-- The integration loop started at index `i` is the accumulator plus the
sum of the per-position contributions, each taken at its raw index. -/
theorem denomAux_eq_sum (cap : ℝ → ℝ) (N : ℕ) (l : List (Option ℝ)) : ∀ (i : ℕ) (acc : ℝ),
    denomAux cap N i l acc =
      acc + ∑ j ∈ Finset.range l.length, contribAt cap N (i + j) (l.getD j none) := by
  induction l with
  | nil => intro i acc; simp [denomAux]
  | cons o rest ih =>
    intro i acc
    cases o with
    | none =>
      rw [denomAux, ih (i + 1) acc, List.length_cons, Finset.sum_range_succ']
      simp only [List.getD_cons_succ, List.getD_cons_zero, contribAt, add_zero]
      congr 1
      apply Finset.sum_congr rfl
      intro j _
      have h : i + 1 + j = i + (j + 1) := by omega
      rw [h]
    | some v =>
      rw [denomAux, ih (i + 1) (acc + cap (tauAt N i) * (v / 1000)), List.length_cons,
        Finset.sum_range_succ']
      simp only [List.getD_cons_succ, List.getD_cons_zero, contribAt, add_zero]
      have h : ∀ j, i + 1 + j = i + (j + 1) := by intro j; omega
      rw [Finset.sum_congr rfl (fun j _ => by rw [h j])]
      linarith

/-- An empty series integrates to zero, so a positive integrated
denominator forces a non-empty series. -/
theorem length_ne_zero_of_denomSum_pos {cap : ℝ → ℝ} {gti : List (Option ℝ)}
    (h : 0 < denomSum cap gti) : gti.length ≠ 0 := by
  intro h0
  rw [List.length_eq_zero.mp h0] at h
  simp [denomSum, denomAux] at h

/-! ## Claims -/

/-- Claim C2: for every `C_start > 0` and `C_end > 0`, both growth laws
satisfy the boundary conditions: the trajectory equals `C_start` at
`tau = 0` and `C_end` at `tau = 1`. -/
theorem claim_C2_capacity_boundary (Cs Ce : ℝ) (hs : 0 < Cs) (he : 0 < Ce) :
    cap_exponential Cs Ce 0 = Cs ∧ cap_exponential Cs Ce 1 = Ce ∧
    cap_linear Cs Ce 0 = Cs ∧ cap_linear Cs Ce 1 = Ce := by
  refine ⟨by simp [cap_exponential], ?_, by simp [cap_linear], by simp [cap_linear]⟩
  rw [cap_exponential, mul_one, Real.exp_log (div_pos he hs)]
  field_simp

/-- Witness for claim C2 at `C_start = 2`, `C_end = 3`. -/
theorem claim_C2_witness :
    cap_exponential 2 3 0 = 2 ∧ cap_exponential 2 3 1 = 3 ∧
    cap_linear 2 3 0 = 2 ∧ cap_linear 2 3 1 = 3 :=
  claim_C2_capacity_boundary 2 3 (by norm_num) (by norm_num)

/-- Claim C4 counterexample: `compute_K_linear` performs no capacity
check, so with `C_prev = 0` it returns a K value instead of raising the
invalid-capacity error. -/
theorem claim_C4_counterexample :
    compute_K_linear 0 5 10 [some 1000, some 1000] = .ok 2 := by
  norm_num [compute_K_linear, denomSum, denomAux, cap_linear, tauAt]

/-- Claim C4 amended: only `compute_K_exponential` validates the
capacity endpoints — it fails with the invalid-capacity error for every
`C_prev <= 0` or `C_curr <= 0`, while `compute_K_linear` performs no
such check. -/
theorem claim_C4_invalid_capacity (Cp Cc E : ℝ) (gti : List (Option ℝ))
    (h : Cp ≤ 0 ∨ Cc ≤ 0) :
    compute_K_exponential Cp Cc E gti = .error .invalidCapacity := by
  rw [compute_K_exponential, if_pos h]

/-- Witness for the amended claim C4 at `C_prev = 0`. -/
theorem claim_C4_witness :
    compute_K_exponential 0 5 10 [some 1000] = .error .invalidCapacity :=
  claim_C4_invalid_capacity 0 5 10 [some 1000] (Or.inl (by norm_num))

/-- Claim C7: the ratio calibration computes `R_cap = C_loc / C_region`,
`E_loc_naive = R_cap * E_region` and `K = E_loc_trusted / E_loc_naive`
whenever both divisors are non-zero. -/
theorem claim_C7_ratio_formulas (Cl Cr Er Et : ℚ) (hCr : Cr ≠ 0)
    (hn : Cl / Cr * Er ≠ 0) :
    calibrate Cl Cr Er Et = .ok (Cl / Cr, Cl / Cr * Er, Et / (Cl / Cr * Er)) := by
  simp [calibrate, hCr, hn]

/-- Witness for claim C7: the end-to-end example of the spec,
`C_loc = 100`, `C_region = 10000`, `E_region = 5000`,
`E_loc_trusted = 60` yields `R_cap = 0.01`, `E_loc_naive = 50`,
`K = 1.2`. -/
theorem claim_C7_witness :
    calibrate 100 10000 5000 60 = .ok (1 / 100, 50, 6 / 5) := by
  have h := claim_C7_ratio_formulas 100 10000 5000 60 (by norm_num) (by norm_num)
  norm_num at h
  exact h

/-- Claim C8 counterexample: with the negative regional capacity total
`C_region = -100` the ratio calibration returns a (negative) K value
instead of failing, although the claim demands an error for every
`C_region <= 0`. -/
theorem claim_C8_counterexample :
    calibrate 100 (-100) 5000 60 = .ok (-1, -5000, -(3 / 250)) := by
  norm_num [calibrate]

/-- Claim C8 amended: the ratio calibration fails with the ratio
denominator error exactly when `C_region = 0`, and with the calibration
denominator error exactly when `C_region ≠ 0` and the naive proxy is
zero; negative denominators are not detected. -/
theorem claim_C8_zero_denominators (Cl Cr Er Et : ℚ) :
    (calibrate Cl Cr Er Et = .error .invalidRatioDenominator ↔ Cr = 0) ∧
    (calibrate Cl Cr Er Et = .error .invalidCalibrationDenominator ↔
      ¬ Cr = 0 ∧ Cl / Cr * Er = 0) := by
  by_cases h1 : Cr = 0
  · simp [calibrate, h1]
  · by_cases h2 : Cl / Cr * Er = 0 <;> simp [calibrate, h1, h2]

/-- Claim C9 counterexample: a non-empty series consisting entirely of
missing samples passes the emptiness check and yields the sum `0.0`
instead of the empty-series error. -/
theorem claim_C9_counterexample :
    get_annual_irradiance_kwh_per_kwp [none] = .ok 0 := by
  simp [get_annual_irradiance_kwh_per_kwp, annualSumAux]

/-- Claim C9 amended: the annual-irradiance computation fails with the
empty-series error exactly on the empty raw list, and on every non-empty
series (even one with no present sample) returns the sum of `v / 1000`
over the non-missing samples. -/
theorem claim_C9_sum_and_empty :
    get_annual_irradiance_kwh_per_kwp ([] : List (Option ℝ)) = .error .emptySeries ∧
    ∀ gti : List (Option ℝ), gti ≠ [] →
      get_annual_irradiance_kwh_per_kwp gti =
        .ok (((gti.filterMap id).map (fun v => v / 1000)).sum) := by
  constructor
  · rfl
  · intro gti hg
    obtain ⟨o, rest, rfl⟩ := List.exists_cons_of_ne_nil hg
    simp only [get_annual_irradiance_kwh_per_kwp, annualSumAux_eq, zero_add]

/-- Witness for the amended claim C9 on a series with one present and
one missing sample. -/
theorem claim_C9_witness :
    get_annual_irradiance_kwh_per_kwp [some 125, none] =
      .ok ((([some 125, none].filterMap id).map (fun v => v / 1000)).sum) :=
  claim_C9_sum_and_empty.2 [some 125, none] (by simp)

/-- Claim C1: in both per-year integrations the denominator is a sum of
per-raw-position contributions, where the contribution of position `i`
uses `tauAt N i` (that is, `i / (N - 1)` for `N > 1`, else `0`) and
depends only on `i`, `N` and the sample stored at `i` — skipping missing
samples does not change the `tau` of the remaining present samples. -/
theorem claim_C1_tau_position_based (Cp Cc : ℝ) (gti : List (Option ℝ)) :
    denomSum (cap_exponential Cp Cc) gti =
      (∑ i ∈ Finset.range gti.length,
        contribAt (cap_exponential Cp Cc) gti.length i (gti.getD i none)) ∧
    denomSum (cap_linear Cp Cc) gti =
      (∑ i ∈ Finset.range gti.length,
        contribAt (cap_linear Cp Cc) gti.length i (gti.getD i none)) := by
  constructor <;> (rw [denomSum, denomAux_eq_sum]; simp)

/-- Claim C3: for inputs passing the preconditions, each per-year
calibration either has a positive integrated denominator and returns the
strictly positive value `E / denom`, or has a non-positive denominator
and fails with an error — K is never reported as `0` or as the result of
dividing by a non-positive denominator. -/
theorem claim_C3_K_positive (Cp Cc E : ℝ) (gti : List (Option ℝ))
    (hp : 0 < Cp) (hc : 0 < Cc) (he : 0 < E) :
    ((0 < denomSum (cap_exponential Cp Cc) gti ∧
        compute_K_exponential Cp Cc E gti =
          .ok (E / denomSum (cap_exponential Cp Cc) gti) ∧
        0 < E / denomSum (cap_exponential Cp Cc) gti) ∨
      (denomSum (cap_exponential Cp Cc) gti ≤ 0 ∧
        (compute_K_exponential Cp Cc E gti = .error .emptySeries ∨
          compute_K_exponential Cp Cc E gti = .error .nonPositiveIntegral))) ∧
    ((0 < denomSum (cap_linear Cp Cc) gti ∧
        compute_K_linear Cp Cc E gti =
          .ok (E / denomSum (cap_linear Cp Cc) gti) ∧
        0 < E / denomSum (cap_linear Cp Cc) gti) ∨
      (denomSum (cap_linear Cp Cc) gti ≤ 0 ∧
        (compute_K_linear Cp Cc E gti = .error .emptySeries ∨
          compute_K_linear Cp Cc E gti = .error .nonPositiveIntegral))) := by
  have hcap : ¬(Cp ≤ 0 ∨ Cc ≤ 0) := by push_neg; exact ⟨hp, hc⟩
  have hE : ¬ E ≤ 0 := not_le.mpr he
  constructor
  · rcases le_or_lt (denomSum (cap_exponential Cp Cc) gti) 0 with hd | hd
    · right
      refine ⟨hd, ?_⟩
      by_cases h0 : gti.length = 0
      · left; simp [compute_K_exponential, hcap, hE, h0]
      · right; simp [compute_K_exponential, hcap, hE, h0, hd]
    · left
      refine ⟨hd, ?_, div_pos he hd⟩
      simp [compute_K_exponential, hcap, hE, length_ne_zero_of_denomSum_pos hd,
        not_le.mpr hd]
  · rcases le_or_lt (denomSum (cap_linear Cp Cc) gti) 0 with hd | hd
    · right
      refine ⟨hd, ?_⟩
      by_cases h0 : gti.length = 0
      · left; simp [compute_K_linear, h0]
      · right; simp [compute_K_linear, h0, hd]
    · left
      refine ⟨hd, ?_, div_pos he hd⟩
      simp [compute_K_linear, length_ne_zero_of_denomSum_pos hd, not_le.mpr hd]

/-- Witness for claim C3 at `C_prev = C_curr = E = 1` and the one-sample
series `[some 1000]`. -/
theorem claim_C3_witness :
    ((0 < denomSum (cap_exponential 1 1) [some 1000] ∧
        compute_K_exponential 1 1 1 [some 1000] =
          .ok (1 / denomSum (cap_exponential 1 1) [some 1000]) ∧
        0 < 1 / denomSum (cap_exponential 1 1) [some 1000]) ∨
      (denomSum (cap_exponential 1 1) [some 1000] ≤ 0 ∧
        (compute_K_exponential 1 1 1 [some 1000] = .error .emptySeries ∨
          compute_K_exponential 1 1 1 [some 1000] = .error .nonPositiveIntegral))) ∧
    ((0 < denomSum (cap_linear 1 1) [some 1000] ∧
        compute_K_linear 1 1 1 [some 1000] =
          .ok (1 / denomSum (cap_linear 1 1) [some 1000]) ∧
        0 < 1 / denomSum (cap_linear 1 1) [some 1000]) ∨
      (denomSum (cap_linear 1 1) [some 1000] ≤ 0 ∧
        (compute_K_linear 1 1 1 [some 1000] = .error .emptySeries ∨
          compute_K_linear 1 1 1 [some 1000] = .error .nonPositiveIntegral))) :=
  claim_C3_K_positive 1 1 1 [some 1000] (by norm_num) (by norm_num) (by norm_num)

/-- Claim C10 counterexample: with equal positive endpoints but a
negative energy, the exponential calibration rejects the energy while the
linear calibration (which never validates it) returns a K value, so the
two functions do not return identical results on identical inputs. -/
theorem claim_C10_counterexample :
    compute_K_exponential 1 1 (-1) [some 1000] ≠ compute_K_linear 1 1 (-1) [some 1000] := by
  have h1 : compute_K_exponential 1 1 (-1) [some 1000] = .error .invalidEnergy := by
    norm_num [compute_K_exponential]
  have h2 : compute_K_linear 1 1 (-1) [some 1000] = .ok (-1) := by
    norm_num [compute_K_linear, denomSum, denomAux, cap_linear, tauAt]
  rw [h1, h2]
  simp

/-- Claim C10 amended: with equal positive endpoints and a positive
energy, the constant-capacity trajectory makes the exponential and the
linear per-year calibration return identical results on every
irradiance series — on an empty series both fail with the same
empty-series error. -/
theorem claim_C10_equal_endpoints (C E : ℝ) (gti : List (Option ℝ))
    (hC : 0 < C) (hE : 0 < E) :
    compute_K_exponential C C E gti = compute_K_linear C C E gti := by
  have hfun : cap_exponential C C = cap_linear C C := by
    funext τ
    simp [cap_exponential, cap_linear, div_self hC.ne', Real.log_one]
  have hcap : ¬(C ≤ 0 ∨ C ≤ 0) := by push_neg; exact ⟨hC, hC⟩
  rw [compute_K_exponential, if_neg hcap, if_neg (not_le.mpr hE), compute_K_linear, hfun]

/-- Witness for the amended claim C10 at `C = E = 1` and the one-sample
series `[some 1000]`. -/
theorem claim_C10_witness :
    compute_K_exponential 1 1 1 [some 1000] = compute_K_linear 1 1 1 [some 1000] :=
  claim_C10_equal_endpoints 1 1 [some 1000] (by norm_num) (by norm_num)

/-- Claim C5 counterexample: a year that passes the validity test but
fails during integration (here: a single zero-irradiance sample, giving
a zero denominator) terminates the whole batch — the following valid
year produces no result, although the claim says such failures are
recovered locally. -/
theorem claim_C5_counterexample :
    runBatch [⟨1, 1, 1, [some 0]⟩, ⟨1, 1, 1, [some 1000]⟩] =
      .error .nonPositiveIntegral := by
  have hd : denomSum (cap_exponential 1 1) [some 0] = 0 := by
    simp [denomSum, denomAux]
  have h1 : compute_K_exponential 1 1 1 [some 0] = .error .nonPositiveIntegral := by
    rw [compute_K_exponential]
    norm_num [hd]
  rw [runBatch]
  norm_num [h1, Bind.bind, Except.bind]

/-- Claim C5 amended: a year failing the validity precondition never
aborts the batch — it is skipped, contributes no entry, and every valid
year still produces its K pair — provided integration succeeds for every
valid year; an integration failure, by contrast, is not recovered and
terminates the batch. -/
theorem claim_C5_skip_invalid (ys : List YearInput)
    (h : ∀ y ∈ ys, ¬(y.C_prev ≤ 0 ∨ y.C_curr ≤ 0 ∨ y.E ≤ 0) →
      0 < denomSum (cap_exponential y.C_prev y.C_curr) y.gti ∧
      0 < denomSum (cap_linear y.C_prev y.C_curr) y.gti) :
    runBatch ys = .ok (expectedResults ys) := by
  induction ys with
  | nil => rfl
  | cons y rest ih =>
    have htail : runBatch rest = .ok (expectedResults rest) :=
      ih (fun z hz => h z (List.mem_cons_of_mem y hz))
    by_cases hy : y.C_prev ≤ 0 ∨ y.C_curr ≤ 0 ∨ y.E ≤ 0
    · rw [runBatch, if_pos hy, expectedResults, if_pos hy, htail]
    · obtain ⟨hdE, hdL⟩ := h y (List.mem_cons_self y rest) hy
      have hy' := hy
      push_neg at hy'
      obtain ⟨hp, hc, he⟩ := hy'
      have hexp : compute_K_exponential y.C_prev y.C_curr y.E y.gti =
          .ok (y.E / denomSum (cap_exponential y.C_prev y.C_curr) y.gti) := by
        simp [compute_K_exponential, hy, hp, hc, not_le.mpr he,
          length_ne_zero_of_denomSum_pos hdE, not_le.mpr hdE]
      have hlin : compute_K_linear y.C_prev y.C_curr y.E y.gti =
          .ok (y.E / denomSum (cap_linear y.C_prev y.C_curr) y.gti) := by
        simp [compute_K_linear, length_ne_zero_of_denomSum_pos hdL, not_le.mpr hdL]
      rw [runBatch, if_neg hy, expectedResults, if_neg hy]
      rw [hexp, hlin, htail]
      rfl

/-- Witness for the amended claim C5: a batch whose first year has
`C_prev = 0` (skipped) and whose second year is valid still produces the
results of the valid year. -/
theorem claim_C5_witness :
    runBatch [⟨0, 1, 1, []⟩, ⟨1, 1, 1, [some 1000]⟩] =
      .ok (expectedResults [⟨0, 1, 1, []⟩, ⟨1, 1, 1, [some 1000]⟩]) := by
  apply claim_C5_skip_invalid
  intro y hy hval
  simp only [List.mem_cons, List.not_mem_nil, or_false] at hy
  rcases hy with h | h
  · exfalso
    apply hval
    rw [h]
    left
    norm_num
  · subst h
    constructor <;>
      norm_num [denomSum, denomAux, cap_exponential, cap_linear, tauAt, Real.log_one,
        Real.exp_zero]

/-- Claim C6: the median reduction returns the element at index
`len / 2` of the ascending-sorted list — always an actual element of the
list, never an average — so the median of `[1, 2, 3, 4]` is `3`, not
`5 / 2`, while the mean of that list is `5 / 2`; and the exponential and
linear summaries each depend only on their own K list. -/
theorem claim_C6_median_upper_middle :
    (∀ l : List ℚ, l ≠ [] → medianK l ∈ l) ∧
    medianK [1, 2, 3, 4] = 3 ∧
    ¬ medianK [1, 2, 3, 4] = 5 / 2 ∧
    reduceK [1, 2, 3, 4] = some (5 / 2, 3) ∧
    (∀ le le' ll ll' : List ℚ,
      (summarize le ll).1 = (summarize le ll').1 ∧
      (summarize le ll).2 = (summarize le' ll).2) := by
  have hmed : medianK [1, 2, 3, 4] = 3 := by
    rw [medianK, List.mergeSort_of_sorted (by decide)]
    rfl
  refine ⟨?_, hmed, by rw [hmed]; norm_num, ?_, fun le le' ll ll' => ⟨rfl, rfl⟩⟩
  · intro l hl
    have hpos : 0 < l.length := List.length_pos.mpr hl
    have hlt : l.length / 2 < (l.mergeSort (fun a b => decide (a ≤ b))).length := by
      rw [List.length_mergeSort]
      exact Nat.div_lt_self hpos (by norm_num)
    rw [medianK, List.getD_eq_getElem?_getD, List.getElem?_eq_getElem hlt, Option.getD_some]
    exact List.mem_mergeSort.mp (List.getElem_mem hlt)
  · rw [reduceK]
    norm_num [hmed]

/-- Witness for claim C6: the median of the concrete even-length list
`[1, 2, 3, 4]` is one of its elements. -/
theorem claim_C6_witness :
    medianK [1, 2, 3, 4] ∈ ([1, 2, 3, 4] : List ℚ) :=
  claim_C6_median_upper_middle.1 [1, 2, 3, 4] (by simp)

end AntonySoleil
